import Mathlib

/-!
Shallow embedding of the provider registry and configuration-validation
engine of the airi repository: the pinia `providers` store
(`useProvidersStore`) and the per-provider settings components.

Modelling conventions:
* A JS provider configuration object is the structure `Config`; fields that
  may be `undefined` are `Option`s.  JS falsiness of a string field
  (`undefined` or an empty string) is the predicate `truthyStr = false`.
* A thrown JS exception is the `JsError` inductive: `JsError.error m`
  models `new Error(m)`, `JsError.typeError m` models the `TypeError`
  raised by a property access on `undefined`.
* An async function that may reject is a Lean function into
  `Except JsError _`: `Except.error` is a rejected promise / thrown
  exception, `Except.ok` a resolved value.
* Reactive `Record<string, T>` maps are either association lists
  (`List (String × _)`, for the credential store, where the key set
  matters) or functions `String → Option _` (for the catalog state).
-/

namespace Airi

/-- One provider's configuration object (`ProviderConfig` in the spec):
a free-form bag conventionally holding `apiKey`, `baseUrl`, `headers`.
An absent (`undefined`) field is `none`. -/
structure Config where
  apiKey : Option String := none
  baseUrl : Option String := none
  headers : List (String × String) := []
deriving Repr, DecidableEq

/-- A thrown JS value: `error m` is `new Error(m)` (the message is `m`),
`typeError m` is the built-in `TypeError` raised when a property of
`undefined` is read. -/
inductive JsError where
  | error (msg : String)
  | typeError (msg : String)
deriving Repr, DecidableEq

/-- `e.message` of a JS error (both constructors are `instanceof Error`). -/
def JsError.message : JsError → String
  | .error m => m
  | .typeError m => m

/-- The outcome object returned by every `validateProviderConfig` hook:
`errors` holds `String(e)` of each collected error. -/
structure ValidationResult where
  errors : List String
  reason : String
  valid : Bool
deriving Repr, DecidableEq

/-- `ModelInfo` entries cached by the model catalog. -/
structure ModelInfo where
  id : String
  name : String
  provider : String
  description : Option String := none
  capabilities : Option (List String) := none
  contextLength : Option Int := none
  deprecated : Option Bool := none
deriving Repr, DecidableEq

/-- JS truthiness of an optional string field: `undefined` and `""` are
falsy, every other string is truthy. -/
def truthyStr : Option String → Bool
  | none => false
  | some s => !s.isEmpty

/-- JS `x || d` for an optional string `x` (empty string is falsy). -/
def jsOrStr (o : Option String) (d : String) : String :=
  match o with
  | none => d
  | some s => if s.isEmpty then d else s

/-- Character scan for an absolute URL: at the first `://` separator the
string is absolute iff at least one scheme character preceded it and a
nonempty remainder (the host part) follows. -/
def absUrlChars : List Char → Bool → Bool
  | ':' :: '/' :: '/' :: rest, seenScheme => seenScheme && !rest.isEmpty
  | _ :: cs, _ => absUrlChars cs true
  | [], _ => false

/-- Modelled from the spec: `isAbsoluteUrl` is imported from
`../utils/string`, a file absent from the sources; per the spec it checks
that the base URL "is an absolute URL (scheme + host present)".  We model
this as: the string contains a `://` separator with a nonempty scheme
before it and a nonempty remainder after it. -/
def isAbsoluteUrl (s : String) : Bool := absUrlChars s.data false

/-- Decidable equality for promise outcomes, used to evaluate the
embedded operations at concrete inputs. -/
instance {ε α : Type} [DecidableEq ε] [DecidableEq α] : DecidableEq (Except ε α) := fun a b =>
  match a, b with
  | .error e, .error e' =>
    if h : e = e' then isTrue (by rw [h]) else isFalse (fun hh => h (Except.error.inj hh))
  | .ok x, .ok y =>
    if h : x = y then isTrue (by rw [h]) else isFalse (fun hh => h (Except.ok.inj hh))
  | .error _, .ok _ => isFalse (fun hh => Except.noConfusion hh)
  | .ok _, .error _ => isFalse (fun hh => Except.noConfusion hh)

/-- `notBaseUrlError` from the providers store: the distinct outcome
returned when a supplied base URL is not absolute. -/
def notBaseUrlError : ValidationResult :=
  { errors := ["Error: Base URL is not absolute"]
    reason := "Base URL is not absolute. Check your input."
    valid := false }

/-- `providerMetadata['openrouter-ai'].validators.validateProviderConfig`:
collects a missing-field error for each of `apiKey` and `baseUrl`; if a
truthy `baseUrl` is present but not absolute it returns `notBaseUrlError`
instead; otherwise the reason is the collected errors joined by `", "`
(`join` of an empty array followed by `|| ''` is the empty string) and
`valid` is the conjunction of both fields being truthy. -/
def openrouterValidateProviderConfig (config : Config) : ValidationResult :=
  let errors :=
    (if truthyStr config.apiKey then [] else ["Error: API key is required"]) ++
    (if truthyStr config.baseUrl then [] else ["Error: Base URL is required"])
  if truthyStr config.baseUrl && !isAbsoluteUrl (config.baseUrl.getD "") then
    notBaseUrlError
  else
    { errors := errors
      reason := String.intercalate ", " errors
      valid := truthyStr config.apiKey && truthyStr config.baseUrl }

/-- The slice of a `ProviderMetadata` table entry that the store's
operations consult.  `isAvailableBy` is the already-evaluated outcome of
the optional availability predicate (`none` = hook absent); the optional
`defaultOptions` field holds the value `defaultOptions()` returns;
`listModels` is the optional discovery capability; the mandatory
`validateProviderConfig` is the validation hook, which may reject. -/
structure ProviderMeta where
  id : String
  category : String
  isAvailableBy : Option (Except JsError Bool) := none
  defaultOptions : Option Config := none
  listModels : Option (Config → Except JsError (List ModelInfo)) := none
  validateProviderConfig : Config → Except JsError ValidationResult

/-- Lookup in an association-list credential store
(`providerCredentials.value[providerId]`). -/
def lookupCfg : List (String × Config) → String → Option Config
  | [], _ => none
  | (k, v) :: rest, pid => if k = pid then some v else lookupCfg rest pid

/-- Assignment `providerCredentials.value[providerId] = cfg`. -/
def insertCfg (creds : List (String × Config)) (pid : String) (cfg : Config) :
    List (String × Config) :=
  match creds with
  | [] => [(pid, cfg)]
  | (k, v) :: rest =>
    if k = pid then (k, cfg) :: rest else (k, v) :: insertCfg rest pid cfg

/-- `validateProvider` from the providers store: returns (`.ok`) `false`
when the stored config is missing, `false` again when the metadata entry
is missing; otherwise awaits the provider's `validateProviderConfig`
(whose rejection propagates, `.error e`), throws `new Error(reason)` when
the outcome is invalid, and resolves `true` otherwise. -/
def validateProvider (table : String → Option ProviderMeta)
    (creds : List (String × Config)) (pid : String) : Except JsError Bool :=
  match lookupCfg creds pid with
  | none => .ok false
  | some config =>
    match table pid with
    | none => .ok false
    | some metadata =>
      match metadata.validateProviderConfig config with
      | .error e => .error e
      | .ok r => if !r.valid then .error (.error r.reason) else .ok r.valid

/-- `initializeProvider` from the providers store: when no credential
entry exists for `pid` it reads `providerMetadata[pid].defaultOptions`
— unguarded, so an id absent from the table raises a `TypeError` — and
seeds the entry with only a `baseUrl` key (`defaultOptions.baseUrl || ''`);
when an entry exists it does nothing. -/
def initializeProvider (table : String → Option ProviderMeta)
    (creds : List (String × Config)) (pid : String) :
    Except JsError (List (String × Config)) :=
  match lookupCfg creds pid with
  | some _ => .ok creds
  | none =>
    match table pid with
    | none =>
      .error (.typeError "Cannot read properties of undefined (reading 'defaultOptions')")
    | some metadata =>
      let defaultOptions := metadata.defaultOptions.getD {}
      .ok (insertCfg creds pid { baseUrl := some (jsOrStr defaultOptions.baseUrl "") })

/-- The model catalog's reactive state: `availableModels`,
`isLoadingModels` and `modelLoadError` maps of the providers store.
A key never written is `none`; `modelLoadError` maps a provider either to
`none` (`null` / never set) or to `some msg`. -/
structure CatalogState where
  availableModels : String → Option (List ModelInfo)
  isLoadingModels : String → Option Bool
  modelLoadError : String → Option String

/-- Point update of a reactive map: `m.value[k] = v`. -/
def updMap {α : Type} (f : String → α) (k : String) (v : α) : String → α :=
  fun x => if x = k then v else f x

/-- The transform applied to each fetched model before caching: a fresh
object literal keeping `id`, `name`, `description`, `contextLength` and
`deprecated`, overriding `provider` with the owning provider id and
carrying no `capabilities` key. -/
def tagModel (pid : String) (m : ModelInfo) : ModelInfo :=
  { id := m.id
    name := m.name
    description := m.description
    contextLength := m.contextLength
    deprecated := m.deprecated
    provider := pid }

/-- `fetchModelsForProvider` from the providers store: early-returns `[]`
without touching state when the config or the metadata is missing;
otherwise sets `isLoadingModels[pid] = true` and `modelLoadError[pid] =
null`, awaits `listModels(config)` (or `[]` when the capability is
absent); on success replaces the cached list wholesale with the tagged
models and returns it; on failure records the error message in
`modelLoadError[pid]` and returns `[]` leaving the cache untouched; in
both cases the `finally` block sets `isLoadingModels[pid] = false`. -/
def fetchModelsForProvider (table : String → Option ProviderMeta)
    (creds : List (String × Config)) (s : CatalogState) (pid : String) :
    CatalogState × List ModelInfo :=
  match lookupCfg creds pid with
  | none => (s, [])
  | some config =>
    match table pid with
    | none => (s, [])
    | some metadata =>
      let s1 : CatalogState :=
        { s with isLoadingModels := updMap s.isLoadingModels pid (some true)
                 modelLoadError := updMap s.modelLoadError pid none }
      match (metadata.listModels.map (fun f => f config)).getD (.ok []) with
      | .ok models =>
        let tagged := models.map (tagModel pid)
        let s2 : CatalogState :=
          { s1 with availableModels := updMap s1.availableModels pid (some tagged) }
        ({ s2 with isLoadingModels := updMap s2.isLoadingModels pid (some false) }, tagged)
      | .error e =>
        ({ s1 with modelLoadError := updMap s1.modelLoadError pid (some e.message)
                   isLoadingModels := updMap s1.isLoadingModels pid (some false) }, [])

/-- The changed-provider detection of the credentials watcher: the keys of
the new credential record whose serialized entry differs from the old one
(deep-equality-sensitive; `JSON.stringify` comparison is modelled as
structural equality of the optional config). -/
def changedProviders (newCreds oldCreds : List (String × Config)) : List String :=
  (newCreds.map Prod.fst).filter
    (fun pid => lookupCfg newCreds pid != lookupCfg oldCreds pid)

/-- One iteration of the credentials watcher's loop: if the changed
provider is currently configured and its metadata has the `listModels`
capability, run `fetchModelsForProvider` on the catalog state and record
that a fetch was triggered for it; otherwise leave the accumulator
alone. -/
def watchStep (table : String → Option ProviderMeta) (configured : String → Bool)
    (newCreds : List (String × Config)) (acc : CatalogState × List String)
    (pid : String) : CatalogState × List String :=
  if configured pid && ((table pid).map (fun m => m.listModels.isSome)).getD false then
    ((fetchModelsForProvider table newCreds acc.1 pid).1, acc.2 ++ [pid])
  else acc

/-- The body of `watch(providerCredentials, ...)` that refetches models:
for each changed provider that is currently configured and whose metadata
has the `listModels` capability, run `fetchModelsForProvider`.  Also
returns the list of provider ids for which a fetch was triggered. -/
def credentialsWatchHandler (table : String → Option ProviderMeta)
    (configured : String → Bool) (newCreds oldCreds : List (String × Config))
    (s : CatalogState) : CatalogState × List String :=
  (changedProviders newCreds oldCreds).foldl (watchStep table configured newCreds) (s, [])

/-- `availableProvidersMetadata`'s loop body: a sequential `for ... of`
over the descriptors awaiting each `isAvailableBy()` (defaulting to
`true` when the hook is absent) with no `try`/`catch`, pushing the
available ones.  A rejecting predicate therefore rejects the whole
computation. -/
def evalIsAvailableBy (m : ProviderMeta) : Except JsError Bool :=
  m.isAvailableBy.getD (.ok true)

/-- The full `availableProvidersMetadata` pass over a descriptor list. -/
def availableProvidersLoop : List ProviderMeta → Except JsError (List ProviderMeta)
  | [] => .ok []
  | d :: rest =>
    match evalIsAvailableBy d with
    | .error e => .error e
    | .ok b =>
      match availableProvidersLoop rest with
      | .error e => .error e
      | .ok l => .ok (if b then d :: l else l)

/-- The JS object-spread of a function value: a function object has no
enumerable own properties, so spreading it produces an object with no
fields at all. -/
def functionSpreadConfig : Config := {}

/-- `handleResetSettings` from the provider settings components: assigns
`providers.value[providerId]` the spread of
`providerMetadata.value?.defaultOptions` — the `defaultOptions` FUNCTION
itself, which is never called — so the stored config becomes the empty
object (and the component also resets `isValid`, `validationMessage` and
`isValidating`, modelled separately by `VEvent.reset`). -/
def handleResetSettings (creds : List (String × Config)) (pid : String) :
    List (String × Config) :=
  insertCfg creds pid functionSpreadConfig

/-- The steps of a settings component that touch the `isValidating`
counter.  `start` is the entry of `validateConfiguration` (after the
metadata guard): `isValidating.value++`.  `complete` is the deferred
completion handler scheduled in its `finally` block:
`isValidating.value--`.  `emptyInputDebounce` is the branch of
`debouncedValidateConfiguration` taken when the required input is blank:
`isValidating.value = 0`.  `reset` is `handleResetSettings`:
`isValidating.value = 0`. -/
inductive VEvent where
  | start
  | complete
  | emptyInputDebounce
  | reset
deriving Repr, DecidableEq

/-- Instrumented component state: `isValidating` is the source's counter
ref; `inFlight` is the ghost count of validation calls that incremented
the counter and whose completion handler has not yet run (incremented
with the counter, decremented by the completion handler, untouched by the
two forced resets). -/
structure VState where
  isValidating : Int
  inFlight : Int
deriving Repr, DecidableEq

/-- One component step acting on the counter. -/
def vstep (s : VState) : VEvent → VState
  | .start => { isValidating := s.isValidating + 1, inFlight := s.inFlight + 1 }
  | .complete => { isValidating := s.isValidating - 1, inFlight := s.inFlight - 1 }
  | .emptyInputDebounce => { s with isValidating := 0 }
  | .reset => { s with isValidating := 0 }

/-- Run a trace of component steps from the initial state
(`isValidating = 0`, nothing in flight). -/
def vrun (tr : List VEvent) : VState :=
  tr.foldl vstep { isValidating := 0, inFlight := 0 }

/-! ## Concrete fixtures

Test fixtures used to evaluate the embedded operations at concrete
inputs.  The `openrouter-ai` entry carries the source's synchronous
`validateProviderConfig` (which returns its outcome, never throws) and
`defaultOptions`; the network-backed hooks (`listModels`, availability
probes) that cannot be embedded are replaced by fixture stand-ins with
explicitly fixed outcomes. -/

/-- Fixture mirroring `providerMetadata['openrouter-ai']`'s validator and
default options. -/
def openrouterFixtureMeta : ProviderMeta :=
  { id := "openrouter-ai"
    category := "chat"
    defaultOptions := some { baseUrl := some "https://openrouter.ai/api/v1/" }
    validateProviderConfig := fun c => .ok (openrouterValidateProviderConfig c) }

/-- One-entry descriptor table holding the openrouter fixture. -/
def fixtureTable : String → Option ProviderMeta :=
  fun pid => if pid = "openrouter-ai" then some openrouterFixtureMeta else none

/-- Credential store holding openrouter's default config (`apiKey`
absent), as seeded by `initializeProvider`. -/
def fixtureCreds : List (String × Config) :=
  [("openrouter-ai", { baseUrl := some "https://openrouter.ai/api/v1/" })]

/-- Fixture for the ollama entry's stored config before a reset: the
default base URL plus a user-added header. -/
def ollamaFixtureCreds : List (String × Config) :=
  [("ollama", { baseUrl := some "http://localhost:11434/v1/"
                headers := [("Authorization", "Bearer token")] })]

/-- A descriptor whose `isAvailableBy` hook is absent (always
available). -/
def availOkFixtureMeta : ProviderMeta :=
  { id := "always-available"
    category := "chat"
    validateProviderConfig := fun _ => .ok { errors := [], reason := "", valid := true } }

/-- A descriptor whose `isAvailableBy` predicate rejects. -/
def availThrowFixtureMeta : ProviderMeta :=
  { id := "avail-throws"
    category := "speech"
    isAvailableBy := some (.error (.error "gpu probe failed"))
    validateProviderConfig := fun _ => .ok { errors := [], reason := "", valid := true } }

/-- A previously cached model entry, used to observe staleness. -/
def staleModelFixture : ModelInfo :=
  { id := "m0", name := "m0", provider := "failing-models" }

/-- A descriptor whose `listModels` capability rejects. -/
def failingModelsFixtureMeta : ProviderMeta :=
  { id := "failing-models"
    category := "chat"
    listModels := some (fun _ => .error (.error "network down"))
    validateProviderConfig := fun _ => .ok { errors := [], reason := "", valid := true } }

/-- Table holding the failing-listModels fixture. -/
def catalogFixtureTable : String → Option ProviderMeta :=
  fun pid => if pid = "failing-models" then some failingModelsFixtureMeta else none

/-- Credential store for the catalog fixtures. -/
def catalogFixtureCreds : List (String × Config) :=
  [("failing-models", {})]

/-- Catalog state with a stale cached model list for `failing-models`. -/
def catalogFixtureState : CatalogState :=
  { availableModels := fun pid => if pid = "failing-models" then some [staleModelFixture] else none
    isLoadingModels := fun _ => none
    modelLoadError := fun _ => none }

end Airi

namespace Airi

/-! ## Helper lemmas -/

/-- Looking up the just-inserted key returns the inserted config. -/
theorem lookupCfg_insertCfg_self (creds : List (String × Config)) (pid : String)
    (cfg : Config) : lookupCfg (insertCfg creds pid cfg) pid = some cfg := by
  induction creds with
  | nil => simp [insertCfg, lookupCfg]
  | cons kv rest ih =>
    obtain ⟨k, v⟩ := kv
    by_cases h : k = pid
    · simp [insertCfg, lookupCfg, h]
    · simp [insertCfg, lookupCfg, h, ih]

/-! ## Claims -/

/-- C1, counterexample: with openrouter's default config stored (the
`apiKey` still missing), the store's `validateProvider` rejects with
`Error('Error: API key is required')` instead of resolving to an invalid
outcome — so validation does throw to its caller. -/
theorem validateProvider_rejects_concrete :
    validateProvider fixtureTable fixtureCreds "openrouter-ai" =
      .error (.error "Error: API key is required") := by decide

/-- C1, amended: whenever the stored config and the metadata exist and the
provider's `validateProviderConfig` hook resolves to an invalid outcome,
`validateProvider` throws `new Error(outcome.reason)` to its caller (and a
rejection of the hook itself propagates unchanged); it never converts an
invalid outcome into a resolved value. -/
theorem validateProvider_throws_on_invalid_outcome
    (table : String → Option ProviderMeta) (creds : List (String × Config))
    (pid : String) (config : Config) (metadata : ProviderMeta) (r : ValidationResult)
    (h1 : lookupCfg creds pid = some config) (h2 : table pid = some metadata)
    (h3 : metadata.validateProviderConfig config = .ok r) (h4 : r.valid = false) :
    validateProvider table creds pid = .error (.error r.reason) := by
  simp [validateProvider, h1, h2, h3, h4]

/-- C1, witness: the amended theorem applied to the openrouter fixture
with its default config. -/
theorem validateProvider_throws_on_invalid_outcome_witness :
    validateProvider fixtureTable fixtureCreds "openrouter-ai" =
      .error (.error (openrouterValidateProviderConfig
        { baseUrl := some "https://openrouter.ai/api/v1/" }).reason) :=
  validateProvider_throws_on_invalid_outcome fixtureTable fixtureCreds
    "openrouter-ai" _ _ _ rfl rfl rfl (by decide)

/-- C3, counterexample: with the stored config missing (left) or the
descriptor missing (right), `validateProvider` resolves to `false`
instead of throwing a NotFound error. -/
theorem validateProvider_missing_resolves_concrete :
    validateProvider fixtureTable [] "openrouter-ai" = .ok false ∧
    validateProvider fixtureTable [("unknown-provider", {})] "unknown-provider" = .ok false :=
  ⟨rfl, rfl⟩

/-- C3, amended: when either the stored config or the metadata entry for
the provider id is missing, `validateProvider` resolves to `false` (it
does not throw). -/
theorem validateProvider_missing_resolves_false
    (table : String → Option ProviderMeta) (creds : List (String × Config))
    (pid : String) (h : lookupCfg creds pid = none ∨ table pid = none) :
    validateProvider table creds pid = .ok false := by
  rcases h with h | h
  · simp [validateProvider, h]
  · cases hc : lookupCfg creds pid <;> simp [validateProvider, h, hc]

/-- C3, witness: the amended theorem applied to an empty credential
store. -/
theorem validateProvider_missing_resolves_false_witness :
    validateProvider fixtureTable [] "openrouter-ai" = .ok false :=
  validateProvider_missing_resolves_false fixtureTable [] "openrouter-ai" (Or.inl rfl)

/-- C9: for a provider id present in the descriptor table,
`initializeProvider` is idempotent — the first call yields a store on
which the second call is the identity (the entry exists, so the guard
short-circuits and the credential store is unchanged). -/
theorem initializeProvider_idempotent
    (table : String → Option ProviderMeta) (creds : List (String × Config))
    (pid : String) (metadata : ProviderMeta) (h : table pid = some metadata) :
    ∃ s1, initializeProvider table creds pid = .ok s1 ∧
      initializeProvider table s1 pid = .ok s1 := by
  rcases hc : lookupCfg creds pid with _ | cfg
  · refine ⟨insertCfg creds pid
      { baseUrl := some (jsOrStr (metadata.defaultOptions.getD {}).baseUrl "") }, ?_, ?_⟩
    · simp [initializeProvider, hc, h]
    · simp [initializeProvider, lookupCfg_insertCfg_self]
  · exact ⟨creds, by simp [initializeProvider, hc], by simp [initializeProvider, hc]⟩

/-- C9, witness: the idempotence theorem applied to the openrouter
fixture starting from an empty store. -/
theorem initializeProvider_idempotent_witness :
    ∃ s1, initializeProvider fixtureTable [] "openrouter-ai" = .ok s1 ∧
      initializeProvider fixtureTable s1 "openrouter-ai" = .ok s1 :=
  initializeProvider_idempotent fixtureTable [] "openrouter-ai"
    openrouterFixtureMeta rfl

/-- C10: for a provider id absent from both the descriptor table and the
credential store, `initializeProvider` raises the `TypeError` produced by
reading `defaultOptions` of an `undefined` metadata lookup — it is
neither a no-op (`.ok`) nor a thrown `Error` of the NotFound kind. -/
theorem initializeProvider_unknown_id_typeError
    (table : String → Option ProviderMeta) (creds : List (String × Config))
    (pid : String) (h1 : table pid = none) (h2 : lookupCfg creds pid = none) :
    initializeProvider table creds pid =
      .error (.typeError "Cannot read properties of undefined (reading 'defaultOptions')") := by
  simp [initializeProvider, h1, h2]

/-- C10, witness: the theorem applied to an id unknown to the fixture
table with an empty credential store. -/
theorem initializeProvider_unknown_id_typeError_witness :
    initializeProvider fixtureTable [] "no-such-provider" =
      .error (.typeError "Cannot read properties of undefined (reading 'defaultOptions')") :=
  initializeProvider_unknown_id_typeError fixtureTable [] "no-such-provider" rfl rfl

/-- C2: after `handleResetSettings` on the ollama entry (whose
`defaultOptions()` would return the default base URL), the stored config
is the empty object — the spread of the uncalled `defaultOptions`
function — and not the object holding the default base URL that the spec
requires. -/
theorem handleResetSettings_stores_empty_config :
    lookupCfg (handleResetSettings ollamaFixtureCreds "ollama") "ollama" = some {} ∧
    some ({} : Config) ≠
      some ({ baseUrl := some "http://localhost:11434/v1/" } : Config) := by
  exact ⟨by decide, by decide⟩

/-- C4, counterexample: with a descriptor whose `isAvailableBy` rejects
placed before an always-available descriptor, the whole
`availableProvidersMetadata` pass rejects with the predicate's error —
the failing provider is not merely excluded, and the second descriptor is
never reached. -/
theorem availableProvidersLoop_error_concrete :
    availableProvidersLoop [availThrowFixtureMeta, availOkFixtureMeta] =
      .error (.error "gpu probe failed") := rfl

/-- C4, amended: an exception thrown by any descriptor's `isAvailableBy`
predicate aborts the entire availability pass: whatever descriptors
follow the failing one, the loop rejects with that exception (so no
result list is produced for the pass and `computedAsync` keeps its
previous value), instead of treating the provider as unavailable and
continuing. -/
theorem availableProvidersLoop_aborts_on_predicate_error
    (pre : List ProviderMeta) (d : ProviderMeta) (post : List ProviderMeta)
    (e : JsError)
    (hpre : ∀ m ∈ pre, ∃ b, evalIsAvailableBy m = .ok b)
    (hd : evalIsAvailableBy d = .error e) :
    availableProvidersLoop (pre ++ d :: post) = .error e := by
  induction pre with
  | nil => simp [availableProvidersLoop, hd]
  | cons m rest ih =>
    obtain ⟨b, hb⟩ := hpre m (List.mem_cons_self m rest)
    have htail := ih (fun x hx => hpre x (List.mem_cons_of_mem m hx))
    simp [availableProvidersLoop, hb, htail]

/-- C4, witness: the amended theorem applied to a pass with an available
descriptor before and after the rejecting one. -/
theorem availableProvidersLoop_aborts_on_predicate_error_witness :
    availableProvidersLoop [availOkFixtureMeta, availThrowFixtureMeta, availOkFixtureMeta] =
      .error (.error "gpu probe failed") :=
  availableProvidersLoop_aborts_on_predicate_error
    [availOkFixtureMeta] availThrowFixtureMeta [availOkFixtureMeta] _
    (fun m hm => by
      rw [List.mem_singleton] at hm
      subst hm
      exact ⟨true, rfl⟩ )
    rfl

/-- C5: for the openrouter validator, validating with both `apiKey` and
`baseUrl` empty yields an invalid outcome whose reason cites both missing
fields; and for any non-empty baseUrl that is not absolute, the outcome
is `notBaseUrlError` regardless of the (possibly missing) `apiKey`,
short-circuiting the missing-field reasons. -/
theorem openrouter_validation_presence_and_absoluteness :
    ((openrouterValidateProviderConfig { apiKey := some "", baseUrl := some "" }).valid = false ∧
     (openrouterValidateProviderConfig { apiKey := some "", baseUrl := some "" }).reason =
       "Error: API key is required, Error: Base URL is required") ∧
    ∀ (apiKey : Option String) (u : String), u ≠ "" → isAbsoluteUrl u = false →
      openrouterValidateProviderConfig { apiKey := apiKey, baseUrl := some u } =
        notBaseUrlError := by
  refine ⟨⟨by decide, by decide⟩, ?_⟩
  intro apiKey u hu hab
  have hne : u.isEmpty = false := by
    rw [Bool.eq_false_iff]
    intro h
    exact hu ((String.isEmpty_iff u).mp h)
  have ht : truthyStr (some u) = true := by simp [truthyStr, hne]
  simp [openrouterValidateProviderConfig, ht, hab]

/-- C5, witness: the theorem's second part applied to the claim's example
`api.example.com` (non-empty, no scheme) with `apiKey` absent. -/
theorem openrouter_validation_presence_and_absoluteness_witness :
    ("api.example.com" ≠ "" ∧ isAbsoluteUrl "api.example.com" = false) ∧
    openrouterValidateProviderConfig { baseUrl := some "api.example.com" } =
      notBaseUrlError :=
  ⟨⟨by decide, by decide⟩,
    openrouter_validation_presence_and_absoluteness.2 none "api.example.com"
      (by decide) (by decide)⟩

/-- C6: when the stored config and metadata exist and the provider's
`listModels` call rejects, `fetchModelsForProvider` records the error
message in `modelLoadError[pid]`, leaves the cached model list untouched,
returns `[]`, and sets `isLoadingModels[pid]` back to `false`; and when
the call succeeds (for instance a retry after a failure), it clears
`modelLoadError[pid]` and again ends with `isLoadingModels[pid] =
false`. -/
theorem fetchModelsForProvider_error_handling
    (table : String → Option ProviderMeta) (creds : List (String × Config))
    (s : CatalogState) (pid : String) (config : Config) (metadata : ProviderMeta)
    (f : Config → Except JsError (List ModelInfo))
    (h1 : lookupCfg creds pid = some config) (h2 : table pid = some metadata)
    (h3 : metadata.listModels = some f) :
    (∀ e, f config = .error e →
      (fetchModelsForProvider table creds s pid).1.modelLoadError pid = some e.message ∧
      (fetchModelsForProvider table creds s pid).1.availableModels pid = s.availableModels pid ∧
      (fetchModelsForProvider table creds s pid).2 = [] ∧
      (fetchModelsForProvider table creds s pid).1.isLoadingModels pid = some false) ∧
    (∀ ms, f config = .ok ms →
      (fetchModelsForProvider table creds s pid).1.modelLoadError pid = none ∧
      (fetchModelsForProvider table creds s pid).1.isLoadingModels pid = some false) := by
  constructor
  · intro e he
    simp [fetchModelsForProvider, h1, h2, h3, he, updMap]
  · intro ms hms
    simp [fetchModelsForProvider, h1, h2, h3, hms, updMap]

/-- C6, witness: the theorem's failure part applied to the rejecting
`listModels` fixture, starting from a state with a stale cached list. -/
theorem fetchModelsForProvider_error_handling_witness :
    (fetchModelsForProvider catalogFixtureTable catalogFixtureCreds catalogFixtureState
      "failing-models").1.modelLoadError "failing-models" =
        some (JsError.error "network down").message ∧
    (fetchModelsForProvider catalogFixtureTable catalogFixtureCreds catalogFixtureState
      "failing-models").1.availableModels "failing-models" =
        catalogFixtureState.availableModels "failing-models" ∧
    (fetchModelsForProvider catalogFixtureTable catalogFixtureCreds catalogFixtureState
      "failing-models").2 = [] ∧
    (fetchModelsForProvider catalogFixtureTable catalogFixtureCreds catalogFixtureState
      "failing-models").1.isLoadingModels "failing-models" = some false :=
  (fetchModelsForProvider_error_handling catalogFixtureTable catalogFixtureCreds
    catalogFixtureState "failing-models" _ _ _ rfl rfl rfl).1 _ rfl

/-- Fetching models for one provider touches no other provider's
`isLoadingModels`, `modelLoadError` or `availableModels` entry. -/
theorem fetchModels_frame (table : String → Option ProviderMeta)
    (creds : List (String × Config)) (s : CatalogState) (pid B : String)
    (hne : pid ≠ B) :
    (fetchModelsForProvider table creds s pid).1.isLoadingModels B = s.isLoadingModels B ∧
    (fetchModelsForProvider table creds s pid).1.modelLoadError B = s.modelLoadError B ∧
    (fetchModelsForProvider table creds s pid).1.availableModels B = s.availableModels B := by
  have h' : ¬ (B = pid) := fun h => hne h.symm
  cases hc : lookupCfg creds pid with
  | none => simp [fetchModelsForProvider, hc]
  | some config =>
    cases hm : table pid with
    | none => simp [fetchModelsForProvider, hc, hm]
    | some metadata =>
      cases hr : (metadata.listModels.map (fun f => f config)).getD (.ok []) with
      | error e => simp [fetchModelsForProvider, hc, hm, hr, updMap, h']
      | ok ms => simp [fetchModelsForProvider, hc, hm, hr, updMap, h']

/-- One watcher step for a changed provider other than `B` leaves `B`'s
catalog entries and fetched-status unchanged. -/
theorem watchStep_frame (table : String → Option ProviderMeta)
    (configured : String → Bool) (newCreds : List (String × Config))
    (acc : CatalogState × List String) (pid B : String) (hne : pid ≠ B) :
    (watchStep table configured newCreds acc pid).1.isLoadingModels B = acc.1.isLoadingModels B ∧
    (watchStep table configured newCreds acc pid).1.modelLoadError B = acc.1.modelLoadError B ∧
    (watchStep table configured newCreds acc pid).1.availableModels B = acc.1.availableModels B ∧
    ((B ∈ (watchStep table configured newCreds acc pid).2) ↔ B ∈ acc.2) := by
  have hBp : ¬ (B = pid) := fun h => hne h.symm
  cases hcond : (configured pid && ((table pid).map (fun m => m.listModels.isSome)).getD false) with
  | false => simp [watchStep, hcond]
  | true =>
    obtain ⟨a, b, c⟩ := fetchModels_frame table newCreds acc.1 pid B hne
    simp [watchStep, hcond, a, b, c, List.mem_append, hBp]

/-- The watcher's fold over any list of changed providers avoiding `B`
leaves `B`'s catalog entries and fetched-status unchanged. -/
theorem watchFold_frame (table : String → Option ProviderMeta)
    (configured : String → Bool) (newCreds : List (String × Config))
    (B : String) (L : List String) :
    (∀ pid ∈ L, pid ≠ B) → ∀ acc : CatalogState × List String,
      (L.foldl (watchStep table configured newCreds) acc).1.isLoadingModels B = acc.1.isLoadingModels B ∧
      (L.foldl (watchStep table configured newCreds) acc).1.modelLoadError B = acc.1.modelLoadError B ∧
      (L.foldl (watchStep table configured newCreds) acc).1.availableModels B = acc.1.availableModels B ∧
      ((B ∈ (L.foldl (watchStep table configured newCreds) acc).2) ↔ B ∈ acc.2) := by
  induction L with
  | nil => intro _ acc; exact ⟨rfl, rfl, rfl, Iff.rfl⟩
  | cons pid rest ih =>
    intro hL acc
    have hstep := watchStep_frame table configured newCreds acc pid B
      (hL pid (List.mem_cons_self pid rest))
    have hrest := ih (fun x hx => hL x (List.mem_cons_of_mem pid hx))
      (watchStep table configured newCreds acc pid)
    simp only [List.foldl_cons]
    exact ⟨hrest.1.trans hstep.1, hrest.2.1.trans hstep.2.1,
      hrest.2.2.1.trans hstep.2.2.1, hrest.2.2.2.trans hstep.2.2.2⟩

/-- C7: when provider `A`'s stored config changed (no longer deep-equal)
and provider `B`'s did not, the credentials watcher never triggers a
model fetch for `B`, and `B`'s `isLoadingModels`, `modelLoadError` and
cached `availableModels` entries are left exactly as they were. -/
theorem credentialsWatchHandler_frame
    (table : String → Option ProviderMeta) (configured : String → Bool)
    (newCreds oldCreds : List (String × Config)) (s : CatalogState) (A B : String)
    (_hA : lookupCfg newCreds A ≠ lookupCfg oldCreds A)
    (hB : lookupCfg newCreds B = lookupCfg oldCreds B)
    (hAB : A ≠ B) :
    B ∉ (credentialsWatchHandler table configured newCreds oldCreds s).2 ∧
    (credentialsWatchHandler table configured newCreds oldCreds s).1.isLoadingModels B = s.isLoadingModels B ∧
    (credentialsWatchHandler table configured newCreds oldCreds s).1.modelLoadError B = s.modelLoadError B ∧
    (credentialsWatchHandler table configured newCreds oldCreds s).1.availableModels B = s.availableModels B := by
  have hmem : ∀ pid ∈ changedProviders newCreds oldCreds, pid ≠ B := by
    intro pid hp heq
    subst heq
    have hne : (lookupCfg newCreds pid != lookupCfg oldCreds pid) = true :=
      (List.mem_filter.mp hp).2
    rw [bne_iff_ne] at hne
    exact hne hB
  have h := watchFold_frame table configured newCreds B
    (changedProviders newCreds oldCreds) hmem (s, [])
  refine ⟨?_, h.1, h.2.1, h.2.2.1⟩
  intro hBmem
  exact absurd (h.2.2.2.mp hBmem) (List.not_mem_nil B)

/-- Post-change credential store for the frame witness: `openrouter-ai`
gained an `apiKey`, `failing-models` is untouched. -/
def frameFixtureNewCreds : List (String × Config) :=
  [("openrouter-ai", { apiKey := some "k", baseUrl := some "https://openrouter.ai/api/v1/" }),
   ("failing-models", {})]

/-- Pre-change credential store for the frame witness. -/
def frameFixtureOldCreds : List (String × Config) :=
  [("openrouter-ai", { baseUrl := some "https://openrouter.ai/api/v1/" }),
   ("failing-models", {})]

/-- C7, witness: the frame theorem applied to a concrete change of
`openrouter-ai`'s config with `failing-models` untouched. -/
theorem credentialsWatchHandler_frame_witness :
    "failing-models" ∉ (credentialsWatchHandler catalogFixtureTable (fun _ => true)
      frameFixtureNewCreds frameFixtureOldCreds catalogFixtureState).2 ∧
    (credentialsWatchHandler catalogFixtureTable (fun _ => true)
      frameFixtureNewCreds frameFixtureOldCreds catalogFixtureState).1.isLoadingModels "failing-models" =
        catalogFixtureState.isLoadingModels "failing-models" ∧
    (credentialsWatchHandler catalogFixtureTable (fun _ => true)
      frameFixtureNewCreds frameFixtureOldCreds catalogFixtureState).1.modelLoadError "failing-models" =
        catalogFixtureState.modelLoadError "failing-models" ∧
    (credentialsWatchHandler catalogFixtureTable (fun _ => true)
      frameFixtureNewCreds frameFixtureOldCreds catalogFixtureState).1.availableModels "failing-models" =
        catalogFixtureState.availableModels "failing-models" :=
  credentialsWatchHandler_frame catalogFixtureTable (fun _ => true)
    frameFixtureNewCreds frameFixtureOldCreds catalogFixtureState
    "openrouter-ai" "failing-models" (by decide) (by decide) (by decide)

/-- C8, counterexample: starting a validation (counter and in-flight
count both 1) and then resetting the settings drives the counter to 0
while the started call's completion handler has not run (one call still
in flight); when that handler finally runs, the counter goes to -1. -/
theorem isValidating_forced_zero_concrete :
    (vrun [VEvent.start, VEvent.reset]).isValidating = 0 ∧
    (vrun [VEvent.start, VEvent.reset]).inFlight = 1 ∧
    (vrun [VEvent.start, VEvent.reset, VEvent.complete]).isValidating = -1 := by decide

/-- Along any trace of starts and completions (no forced resets), the
difference between the counter and the ghost in-flight count is
invariant. -/
theorem vfold_diff_invariant (tr : List VEvent) :
    (∀ e ∈ tr, e = VEvent.start ∨ e = VEvent.complete) →
      ∀ s : VState,
        (List.foldl vstep s tr).isValidating - (List.foldl vstep s tr).inFlight =
          s.isValidating - s.inFlight := by
  induction tr with
  | nil => intro _ s; rfl
  | cons e rest ih =>
    intro h s
    have he := h e (List.mem_cons_self e rest)
    have ihs := ih (fun x hx => h x (List.mem_cons_of_mem e hx)) (vstep s e)
    simp only [List.foldl_cons]
    rw [ihs]
    rcases he with he | he <;> subst he <;> simp [vstep]

/-- C8, amended: `isValidating` is an integer in-flight counter only on
traces made of validation starts and completions: there it equals the
number of in-flight calls and reaches 0 exactly when all complete.  The
component however has two steps — `handleResetSettings` and the
debounced empty-input branch — that set the counter to 0 unconditionally
even while calls are in flight (after which a pending completion drives
it negative), as the counterexample shows. -/
theorem isValidating_counts_in_flight (tr : List VEvent)
    (h : ∀ e ∈ tr, e = VEvent.start ∨ e = VEvent.complete) :
    (vrun tr).isValidating = (vrun tr).inFlight := by
  have hd := vfold_diff_invariant tr h { isValidating := 0, inFlight := 0 }
  simp only [show ({ isValidating := 0, inFlight := 0 } : VState).isValidating = 0 from rfl,
    show ({ isValidating := 0, inFlight := 0 } : VState).inFlight = 0 from rfl] at hd
  unfold vrun
  omega

/-- C8, witness: the amended theorem applied to an overlapping trace of
two starts and one completion. -/
theorem isValidating_counts_in_flight_witness :
    (vrun [VEvent.start, VEvent.complete, VEvent.start]).isValidating =
      (vrun [VEvent.start, VEvent.complete, VEvent.start]).inFlight :=
  isValidating_counts_in_flight _ (by decide)

end Airi
